import Mathlib

/-!
Verification of the temporal-cluster-matching batch pipeline
(repository `reglab/temporal-cluster-matching`).

The Lean definitions below are a shallow embedding of the Python sources:

* `src/run_algorithm1.py` — sequential batch driver (argument declarations,
  checkpoint loading, the per-geometry loop, and the result-log writer);
* `src/run_algorithm_parallel.py` — parallel batch driver (`main` and `driver`);
* `src/start_server.py` — the `NoisyRtree` spatial tile-index service;
* `src/temporal_cluster_matching/DataInterface.py` — region geometry builder
  (`get_mask_and_bounding_geoms`), the NAIP data loader
  (`_get_fns_from_geom`, `get_data_stack_from_geom`) and its masking logic.

Python-level failure (IndexError, ValueError, TypeError, rasterio errors, …) is
modelled with `Except PyErr`.  Machine floats appear in the sources only as
divergence scores and geographic coordinates; they are modelled as `ℚ`/scaled
integers, with binary-float rounding outside the model.
-/

namespace TCM

/-- Python exception kinds raised by the embedded code paths. -/
inductive PyErr where
  | indexError
  | valueError
  | typeError (kw : String)
  | emptyDataError
  | rasterioError
  deriving Repr, DecidableEq

instance {ε α : Type} [DecidableEq ε] [DecidableEq α] :
    DecidableEq (Except ε α) := fun x y =>
  match x, y with
  | .ok a, .ok b =>
    if h : a = b then .isTrue (by rw [h])
    else .isFalse (fun hc => h (by cases hc; rfl))
  | .error a, .error b =>
    if h : a = b then .isTrue (by rw [h])
    else .isFalse (fun hc => h (by cases hc; rfl))
  | .ok _, .error _ => .isFalse (fun hc => Except.noConfusion hc)
  | .error _, .ok _ => .isFalse (fun hc => Except.noConfusion hc)

/-- Python list indexing `l[i]`: `IndexError` when out of range. -/
def pyListGet {α : Type} (l : List α) (i : Nat) : Except PyErr α :=
  match l.get? i with
  | some v => .ok v
  | none => .error .indexError

/-- The value of a decimal digit character, `none` for any other character. -/
def digitVal? (c : Char) : Option Nat :=
  if '0' ≤ c ∧ c ≤ '9' then some (c.toNat - '0'.toNat) else none

/-- Accumulate a decimal numeral left to right; `none` on a non-digit. -/
def parseDigitsAux : List Char → Nat → Option Nat
  | [], acc => some acc
  | c :: cs, acc =>
    match digitVal? c with
    | some d => parseDigitsAux cs (acc * 10 + d)
    | none => none

/-- Python `int(s)` on a plain, optionally `-`-signed decimal literal; any
other string raises `ValueError`.  (Surrounding whitespace, `+` signs and
underscore separators are not modelled; the ids this code parses are plain
decimals.) -/
def pyStr2Int (s : String) : Except PyErr Int :=
  match s.data with
  | [] => .error .valueError
  | '-' :: [] => .error .valueError
  | '-' :: rest =>
    match parseDigitsAux rest 0 with
    | some n => .ok (-(n : Int))
    | none => .error .valueError
  | cs =>
    match parseDigitsAux cs 0 with
    | some n => .ok ((n : Int))
    | none => .error .valueError

/-! ### C6: argument declarations of `run_algorithm1.py` (lines 13-40)

`argparse.ArgumentParser.add_argument` raises `TypeError` for a keyword
argument that is not one of the keywords the `store`/`store_true` actions
accept.  The parser is built at module import time, before `parse_args` ever
runs. -/

/-- Keyword arguments accepted by `argparse` `add_argument` for the actions
used in `run_algorithm1.py` (`store` and `store_true`). -/
def argparseValidKwargs : List String :=
  ["action", "nargs", "const", "default", "type", "choices",
   "required", "help", "metavar", "dest", "version"]

/-- One `add_argument` call: the option string and the keyword-argument names
passed to it. -/
structure AddArgumentCall where
  name : String
  kwargs : List String
  deriving Repr, DecidableEq

/-- The `add_argument` calls of `run_algorithm1.py` lines 14-38, in order.
Line 31 passes the keyword `requires` (not `required`):
`parser.add_argument('--superres', requires=True, choices=('yes', 'no'))`. -/
def runAlgorithm1ParserCalls : List AddArgumentCall :=
  [⟨"--dataset", ["required", "help"]⟩,
   ⟨"--algorithm", ["default", "choices", "help"]⟩,
   ⟨"--num_clusters", ["type", "required", "help"]⟩,
   ⟨"--parcel_type", ["required", "default", "choices", "help"]⟩,
   ⟨"--superres", ["requires", "choices"]⟩,
   ⟨"--buffer", ["type", "help"]⟩,
   ⟨"--output_dir", ["type", "required", "help"]⟩,
   ⟨"--verbose", ["action", "default", "help"]⟩,
   ⟨"--overwrite", ["action", "default", "help"]⟩]

/-- Executing the `add_argument` calls in order: the first call carrying an
unrecognised keyword raises `TypeError` naming that keyword. -/
def buildArgumentDecls : List AddArgumentCall → Except PyErr Unit
  | [] => .ok ()
  | c :: rest =>
    match c.kwargs.find? (fun k => !(argparseValidKwargs.contains k)) with
    | some k => .error (.typeError k)
    | none => buildArgumentDecls rest

/-- Module start of `run_algorithm1.py`: the parser is constructed (lines
13-38) and only then is the command line parsed (line 40, `parse_args`).
`parse` stands for `parse_args` applied to the given `argv`. -/
def runAlgorithm1Startup {α : Type} (parse : List String → Except PyErr α)
    (argv : List String) : Except PyErr α :=
  match buildArgumentDecls runAlgorithm1ParserCalls with
  | .error e => .error e
  | .ok _ => parse argv

/-! ### C1: statement-level control flow of `run_algorithm_parallel.main`

`main` (lines 70-141) runs, in textual order: checkpoint loading (79-92),
tile-index construction and server start (98-118), `server.serve_forever()`
(line 119), dataset check and geometry loading (124-128), worker-pool
construction and `p.starmap(driver, geoms)` (134-141).
`serve_forever` never returns. -/

/-- The statements of `run_algorithm_parallel.main` at the granularity the
claim speaks about. -/
inductive MainStep where
  | loadCheckpoint
  | startServer
  | serveForever
  | loadGeoms
  | dispatchGeoms
  deriving Repr, DecidableEq

/-- `run_algorithm_parallel.main`, lines 79-141, in source order:
`serve_forever()` (line 119) comes before geometry loading (line 128) and
dispatch (line 141). -/
def parallelMainProgram : List MainStep :=
  [.loadCheckpoint, .startServer, .serveForever, .loadGeoms, .dispatchGeoms]

/-- Observable outcome of running `main`: the statements reached, the
geometries handed to workers, and whether `main` ran to completion. -/
structure MainTrace where
  executed : List MainStep
  dispatched : List Nat
  completed : Bool
  deriving Repr, DecidableEq

/-- Execute a statement list.  `serveForever` blocks for the life of the
process (it never returns), so nothing after it executes; `dispatchGeoms`
hands every loaded geometry to the worker pool. -/
def runMain (geoms : List Nat) : List MainStep → MainTrace
  | [] => ⟨[], [], true⟩
  | .serveForever :: _ => ⟨[.serveForever], [], false⟩
  | .dispatchGeoms :: rest =>
    let t := runMain geoms rest
    ⟨.dispatchGeoms :: t.executed, geoms ++ t.dispatched, t.completed⟩
  | s :: rest =>
    let t := runMain geoms rest
    ⟨s :: t.executed, t.dispatched, t.completed⟩

/-- The statement order the spec describes: the index server runs in a
separate process (`start_server.py`), so the driver continues past server
startup to load and dispatch geometries. -/
def intendedMainProgram : List MainStep :=
  [.loadCheckpoint, .startServer, .loadGeoms, .dispatchGeoms]

/-! ### C3 / C7: NAIP masking logic and `get_data_stack_from_geom`

`DataInterface.py:424-425` (data stack):
`mask[np.sum(mask_image == 0, axis=2) == 4] = 1`;
`DataInterface.py:223-224` (rgb stack):
`mask[np.sum(mask_image == 0, axis=2) != 4] = 1`.
A pixel is a list of band values. -/

/-- `np.sum(mask_image == 0, axis=2)` at one pixel: how many bands are 0. -/
def countZeroBands (p : List Int) : Nat :=
  (p.filter (fun b => b == 0)).length

/-- Data-stack mask at one pixel (`DataInterface.py:425`): `mask` is
initialised to zeros and set to 1 where the zero-band count `== 4`. -/
def dataMaskPixel (p : List Int) : Nat :=
  if countZeroBands p = 4 then 1 else 0

/-- RGB-stack mask at one pixel (`DataInterface.py:224`): set to 1 where the
zero-band count `!= 4`. -/
def rgbMaskPixel (p : List Int) : Nat :=
  if countZeroBands p ≠ 4 then 1 else 0

/-- A pixel carries valid image data when it is not the all-bands-zero
no-data sentinel. -/
def hasData (p : List Int) : Prop :=
  ∃ b ∈ p, b ≠ 0

instance (p : List Int) : Decidable (hasData p) := by
  unfold hasData
  infer_instance

/-- An image patch: rows of pixels, each pixel a list of band values. -/
abbrev Image : Type := List (List (List Int))

/-- A binary occupancy mask: rows of 0/1 entries. -/
abbrev Mask : Type := List (List Nat)

/-- Whole-array version of the data-stack mask assignment
(`DataInterface.py:424-425`). -/
def dataMask (img : Image) : Mask :=
  img.map (fun row => row.map dataMaskPixel)

/-- The external inputs `NAIPDataLoader.get_data_stack_from_geom` consumes for
one geometry: for each year, the tile filenames whose bounds contain the
geometry centroid (`DataInterface.py:340-343`), and the outcome of the two
`rasterio.mask.mask` calls for a filename (`DataInterface.py:348-365`). -/
structure NaipEnv where
  tileHits : Int → List String
  loadMask : Int → String → Except PyErr Image
  loadFull : Int → String → Except PyErr Image

/-- The fixed year list of `DataInterface.py:332`:
`years = [2012, 2014, 2016, 2018, 2020]`.  The matching
`years.append(year)` at line 430 is commented out. -/
def naipYears : List Int := [2012, 2014, 2016, 2018, 2020]

/-- Inner `for fn in fns` loop (`DataInterface.py:345-431`): a failing
`rasterio.mask.mask` call prints and `continue`s to the next filename; on the
first filename where both calls succeed the image and derived mask are
appended and the loop `break`s. -/
def processYear (env : NaipEnv) (year : Int) : List String → Option (Image × Mask)
  | [] => none
  | fn :: rest =>
    match env.loadMask year fn with
    | .error _ => processYear env year rest
    | .ok mask_image =>
      match env.loadFull year fn with
      | .error _ => processYear env year rest
      | .ok full_image => some (full_image, dataMask mask_image)

/-- One step of the outer `for year in years` loop: append the successful
image/mask pair, if any, for this year. -/
def yearStep (env : NaipEnv) (acc : List Image × List Mask) (year : Int) :
    List Image × List Mask :=
  match processYear env year (env.tileHits year) with
  | some (img, msk) => (acc.1 ++ [img], acc.2 ++ [msk])
  | none => acc

/-- `NAIPDataLoader.get_data_stack_from_geom` (`DataInterface.py:330-433`):
the returned `years` value is the constant list of line 332, independent of
which years produced a usable image. -/
def get_data_stack_from_geom (env : NaipEnv) : List Image × List Mask × List Int :=
  let res := naipYears.foldl (yearStep env) ([], [])
  (res.1, res.2, naipYears)

/-- A geometry with no covering tile for any year (empty `tileHits`): every
year contributes no image and no mask. -/
def emptyNaipEnv : NaipEnv :=
  ⟨fun _ => [], fun _ _ => .error .rasterioError, fun _ _ => .error .rasterioError⟩

/-! ### C9: the `NoisyRtree` tile-index service (`start_server.py:16-21`,
`run_algorithm_parallel.py:101-106`)

The `rtree` library index is modelled as the list of inserted
`(id, bounding box)` entries; `intersection` returns the ids of entries whose
closed bounding box meets the closed query box. -/

/-- A bounding box `(minx, miny, maxx, maxy)`. -/
structure BBox where
  minx : ℚ
  miny : ℚ
  maxx : ℚ
  maxy : ℚ
  deriving Repr, DecidableEq

/-- Closed axis-aligned boxes intersect. -/
def bboxIntersects (a b : BBox) : Bool :=
  decide (a.minx ≤ b.maxx) && decide (b.minx ≤ a.maxx) &&
  decide (a.miny ≤ b.maxy) && decide (b.miny ≤ a.maxy)

/-- The in-memory state of an `rtree.Rtree` index: its entries in insertion
order. -/
abbrev RtreeIndex : Type := List (String × BBox)

/-- `Rtree.add(self, i, bbox)`: insert one coverage entry. -/
def Rtree.add (idx : RtreeIndex) (i : String) (b : BBox) : RtreeIndex :=
  idx ++ [(i, b)]

/-- `Rtree.intersection(self, bbox)`: every stored id whose box intersects
the query box. -/
def Rtree.intersection (idx : RtreeIndex) (q : BBox) : List String :=
  (idx.filter (fun e => bboxIntersects e.2 q)).map Prod.fst

/-- `NoisyRtree.add` (`start_server.py:17-18`) delegates to `Rtree.add`. -/
def NoisyRtree.add (idx : RtreeIndex) (i : String) (b : BBox) : RtreeIndex :=
  Rtree.add idx i b

/-- `NoisyRtree.intersection` (`start_server.py:20-21`) delegates to
`Rtree.intersection`. -/
def NoisyRtree.intersection (idx : RtreeIndex) (q : BBox) : List String :=
  Rtree.intersection idx q

/-- The index state of the claim's scenario: `t1` at `(0,0,10,10)` and `t2`
at `(20,20,30,30)` added to an empty index. -/
def exampleIndex : RtreeIndex :=
  NoisyRtree.add (NoisyRtree.add [] "t1" ⟨0, 0, 10, 10⟩) "t2" ⟨20, 20, 30, 30⟩

/-! ### C5: the result-log writer (`run_algorithm1.py:108-115`,
`run_algorithm_parallel.py:52-59`)

One line per geometry: `f.write("%d," % (int(i[0])))`, then `"%d," % year` for
each year, then `"|,"`, then `"%0.4f," % divergence` for each divergence, then
`"\n"`.  A divergence value is carried as an integer count of ten-thousandths
(`%0.4f`'s binary-float rounding is outside the model; the claim concerns the
rendered field format). -/

/-- A geometry id as loaded from the vector file: integer or string. -/
inductive PyVal where
  | int (n : Int)
  | str (s : String)
  deriving Repr, DecidableEq

/-- Python `int(x)` on an id: identity on integers, decimal parse on strings
(`ValueError` when the string is not a decimal literal). -/
def pyIntOfVal : PyVal → Except PyErr Int
  | .int n => .ok n
  | .str s => pyStr2Int s

/-- The four digits after the decimal point of `"%0.4f"`, for a fractional
part of `a` ten-thousandths. -/
def frac4 (a : Nat) : String :=
  toString (a / 1000 % 10) ++ toString (a / 100 % 10) ++
    toString (a / 10 % 10) ++ toString (a % 10)

/-- `"%0.4f" % d` for `d` ten-thousandths: sign, integer part, `.`, and
exactly four fractional digits. -/
def fmt4 (d : Int) : String :=
  (if d < 0 then "-" else "") ++ toString (d.natAbs / 10000) ++ "." ++
    frac4 (d.natAbs % 10000)

/-- `"%d," % n`: one comma-terminated integer field. -/
def intField (n : Int) : String := toString n ++ ","

/-- The year block: one comma-terminated field per time label. -/
def yearFields (years : List Int) : String :=
  String.join (years.map intField)

/-- The divergence block: one comma-terminated `%0.4f` field per value. -/
def divFields (divs : List Int) : String :=
  String.join (divs.map (fun d => fmt4 d ++ ","))

/-- The per-geometry write of `run_algorithm1.py:108-115`: `int(i[0])` first
(raising `ValueError` for a non-decimal string id), then the single line. -/
def writeRow (id : PyVal) (years : List Int) (divs : List Int) :
    Except PyErr String :=
  match pyIntOfVal id with
  | .error e => .error e
  | .ok n => .ok (intField n ++ yearFields years ++ "|," ++ divFields divs ++ "\n")

/-! ### C2: the per-geometry loop of `run_algorithm1.main` (lines 92-117)

The loop body — `get_data_stack_from_geom`, the algorithm call, and the row
write — contains no `try`/`except` (the same holds for `driver` in
`run_algorithm_parallel.py:44-59`).  The body's outcome for one geometry is a
result row or a raised exception; `runBatchLoop` mirrors the loop: rows are
appended to the log as produced, and a raised exception propagates out of the
loop, ending the batch. -/

/-- The sequential per-geometry loop: on `work g = .ok row` the row is
appended and the loop continues; on an exception the loop (and the batch)
terminates, returning the rows written so far and the escaped exception. -/
def runBatchLoop {α : Type} (work : α → Except PyErr String) :
    List α → List String × Option PyErr
  | [] => ([], none)
  | g :: gs =>
    match work g with
    | .ok r =>
      let res := runBatchLoop work gs
      (r :: res.1, res.2)
    | .error e => ([], some e)

/-- A batch environment inducing an imagery-load failure for exactly
geometry `1` and a successful row for every other geometry. -/
def exampleBatchWork : Nat → Except PyErr String
  | 1 => .error .rasterioError
  | g => .ok (toString g ++ ",|,\n")

/-! ### C4: checkpoint loading and resume (`run_algorithm1.py:51-81`,
`run_algorithm_parallel.py:79-92`)

The result log is a headerless CSV, one data line per processed geometry.
`pd.read_csv` is called with default arguments, so its header inference
consumes the first line of the file as the column-name row. -/

/-- A geometry record as the sequential driver sees it in `no_parcel` mode:
an integer id (the footprint plays no role in resume logic). -/
structure GeomRec where
  id : Int
  deriving Repr, DecidableEq

/-- `pd.read_csv(...)` followed by `.iloc[:, 0].tolist()`: the first line is
consumed as the header row, and the first field of each remaining line is
returned.  An existing but empty file raises `EmptyDataError`. -/
def readCsvFirstColumn : List (List String) → Except PyErr (List String)
  | [] => .error .emptyDataError
  | _ :: rows => .ok (rows.map (fun r => r.headD ""))

/-- `run_algorithm1.py:51-61`: `index_done` is `[]` when no `results.csv`
exists; otherwise `[int(i) for i in results.iloc[:, 0].tolist()]`. -/
def loadCheckpoint (existing : Option (List (List String))) :
    Except PyErr (List Int) :=
  match existing with
  | none => .ok []
  | some lines =>
    match readCsvFirstColumn lines with
    | .error e => .error e
    | .ok col => col.mapM pyStr2Int

/-- Modelled from the spec: `utils.get_all_geoms_from_file1` (utils.py and
utils_parallel.py are not under src/).  Per the spec, the driver "loads
geometry list (excluding already-completed IDs)", so the function returns the
file's records whose id is not in `index_done`, in file order. -/
def get_all_geoms_from_file1 (records : List GeomRec) (index_done : List Int) :
    List GeomRec :=
  records.filter (fun r => !(index_done.contains r.id))

/-- One driver invocation up to dispatch (`run_algorithm1.py:51-92`): load
the checkpoint from the existing log, exclude completed ids, and process each
remaining geometry, appending one line per geometry.  Returns the processed
records and the appended lines. -/
def resumeRun (existing : Option (List (List String))) (records : List GeomRec)
    (work : GeomRec → List String) :
    Except PyErr (List GeomRec × List (List String)) :=
  match loadCheckpoint existing with
  | .error e => .error e
  | .ok done =>
    let todo := get_all_geoms_from_file1 records done
    .ok (todo, todo.map work)

/-- The line the per-geometry work writes for a record in the resume
scenario (id, two time labels, the pipe, two divergence fields). -/
def exampleRow (r : GeomRec) : List String :=
  [toString r.id, "2012", "2014", "|", "0.1234", "0.5678"]

/-- The complete log left by a first run over the records `7` and `8`. -/
def firstRunLog : List (List String) := [exampleRow ⟨7⟩, exampleRow ⟨8⟩]

/-! ### C8: `get_mask_and_bounding_geoms` (`DataInterface.py:41-77`) -/

/-- An axis-aligned box with rational corners. -/
structure QBox where
  x0 : ℚ
  y0 : ℚ
  x1 : ℚ
  y1 : ℚ
  deriving Repr, DecidableEq

/-- The point set of a box. -/
def QBox.region (b : QBox) : Set (ℝ × ℝ) :=
  {p | (b.x0 : ℝ) ≤ p.1 ∧ p.1 ≤ (b.x1 : ℝ) ∧ (b.y0 : ℝ) ≤ p.2 ∧ p.2 ≤ (b.y1 : ℝ)}

/-- shapely `.envelope` of a polygon given by its vertex list: the
axis-aligned bounding box of the vertices. -/
def envelopeBox : List (ℚ × ℚ) → QBox
  | [] => ⟨0, 0, 0, 0⟩
  | v :: t =>
    t.foldl (fun b w => ⟨min b.x0 w.1, min b.y0 w.2, max b.x1 w.1, max b.y1 w.2⟩)
      ⟨v.1, v.2, v.1, v.2⟩

/-- The composite `box.buffer(r).envelope` applied to a box, for `r ≥ 0`
(`DataInterface.py:58` and `60`): the envelope of the buffered (rounded)
rectangle is the rectangle expanded by `r` on every side. -/
def bufferEnvelope (b : QBox) (r : ℚ) : QBox :=
  ⟨b.x0 - r, b.y0 - r, b.x1 + r, b.y1 + r⟩

/-- `get_mask_and_bounding_geoms(geom, parcel_geom, buffer)`
(`DataInterface.py:41-77`).  The query footprint is its GeoJSON vertex list
`verts` together with the region `F ⊆ ℝ × ℝ` it encloses
(`shapely.geometry.shape(geom).buffer(0.0)`, the validity-repairing identity
on valid polygons).  The reprojection EPSG:4326 → EPSG:26910 of lines 62-72
is the spec's correct-black-box step and is modelled as the identity.
Returns `(mask_geom, bounding_geom, superres_geom)`; `mask_geom` is the set
difference `bounding_shape - footprint_shape` of line 74. -/
def get_mask_and_bounding_geoms (F : Set (ℝ × ℝ)) (verts : List (ℚ × ℚ))
    (parcel_geom : Option (Set (ℝ × ℝ))) (buffer : ℚ) :
    Set (ℝ × ℝ) × Set (ℝ × ℝ) × Set (ℝ × ℝ) :=
  let bounding_shape :=
    match parcel_geom with
    | some p => p
    | none => (bufferEnvelope (envelopeBox verts) buffer).region
  let superres_shape := (bufferEnvelope (envelopeBox verts) (3 / 10000)).region
  (bounding_shape \ F, bounding_shape, superres_shape)

/-- A valid footprint: the enclosed region lies inside the envelope of its
vertices (true of every valid shapely geometry). -/
def ValidFootprint (F : Set (ℝ × ℝ)) (verts : List (ℚ × ℚ)) : Prop :=
  F ⊆ (envelopeBox verts).region

/-- The unit square, as vertex list and as region. -/
def unitSquareVerts : List (ℚ × ℚ) := [(0, 0), (1, 0), (1, 1), (0, 1)]

/-- The unit square's region. -/
def unitSquare : Set (ℝ × ℝ) := QBox.region ⟨0, 0, 1, 1⟩

/-! ### C10: `NAIPDataLoader._get_fns_from_geom` (`DataInterface.py:148-177`)

A NAIP blob path looks like `v002/al/2011/....tif`; `fn.split("/")[1]` is the
state component, `int(fn.split("/")[2])` the year.  The input `fns` is
`self.index.lookup_tile(*centroid)`, the tile paths covering the geometry's
centroid. -/

/-- Accumulator pass of `s.split("/")`. -/
def splitSlashAux : List Char → List Char → List String
  | [], acc => [String.mk acc.reverse]
  | c :: cs, acc =>
    if c = '/' then String.mk acc.reverse :: splitSlashAux cs []
    else splitSlashAux cs (c :: acc)

/-- Python `s.split("/")`. -/
def splitSlash (s : String) : List String := splitSlashAux s.data []

/-- `fn.split("/")[1]`: the state component. -/
def splitState (fn : String) : Except PyErr String :=
  pyListGet (splitSlash fn) 1

/-- `int(fn.split("/")[2])`: the year component. -/
def splitYear (fn : String) : Except PyErr Int :=
  match pyListGet (splitSlash fn) 2 with
  | .error e => .error e
  | .ok s => pyStr2Int s

/-- Python string comparison `a <= b`: lexicographic on code points. -/
def strLe (a b : String) : Prop := a.data ≤ b.data

instance : DecidableRel strLe := fun a b =>
  inferInstanceAs (Decidable (a.data ≤ b.data))

instance : IsTotal String strLe := ⟨fun a b => le_total a.data b.data⟩

instance : IsTrans String strLe := ⟨fun _ _ _ h1 h2 => le_trans h1 h2⟩

/-- Python `sorted(fns)`: stable ascending sort under string comparison. -/
def pySorted (l : List String) : List String := List.insertionSort strLe l

/-- Ordering of the collected `(filename, year)` pairs by year. -/
def yearLe (p q : String × Int) : Prop := p.2 ≤ q.2

instance : DecidableRel yearLe := fun p q =>
  inferInstanceAs (Decidable (p.2 ≤ q.2))

instance : IsTotal (String × Int) yearLe := ⟨fun a b => le_total a.2 b.2⟩

instance : IsTrans (String × Int) yearLe := ⟨fun _ _ _ h1 h2 => le_trans h1 h2⟩

/-- The filtering loop of `_get_fns_from_geom` (`DataInterface.py:158-169`):
`valid_fns` and `years` are accumulated in iteration order (modelled as a
list of pairs); a filename is skipped when its year was already taken
(`if year in years: continue`) or its state differs from `base_state`
(`if state != base_state: continue`). -/
def fnsLoop (base_state : String) :
    List String → List (String × Int) → Except PyErr (List (String × Int))
  | [], acc => .ok acc
  | fn :: rest, acc =>
    match splitYear fn with
    | .error e => .error e
    | .ok year =>
      match splitState fn with
      | .error e => .error e
      | .ok state =>
        if year ∈ acc.map Prod.snd then fnsLoop base_state rest acc
        else if state ≠ base_state then fnsLoop base_state rest acc
        else fnsLoop base_state rest (acc ++ [(fn, year)])

/-- `np.argsort(years)` reordering (`DataInterface.py:171-175`): the pairs in
ascending year order.  The collected years are pairwise distinct, so the
sorting permutation is unique and `argsort`'s tie behavior is immaterial. -/
def sortByYear (l : List (String × Int)) : List (String × Int) :=
  List.insertionSort yearLe l

/-- `_get_fns_from_geom` (`DataInterface.py:148-177`), keeping each retained
filename with its year: `fns = sorted(fns)`, `base_state = fns[0].split("/")[1]`
(IndexError on an empty lookup result), the filtering loop, then the argsort
reordering. -/
def getFnsPairs (fns : List String) : Except PyErr (List (String × Int)) :=
  match pyListGet (pySorted fns) 0 with
  | .error e => .error e
  | .ok first =>
    match splitState first with
    | .error e => .error e
    | .ok base_state =>
      match fnsLoop base_state (pySorted fns) [] with
      | .error e => .error e
      | .ok pairs => .ok (sortByYear pairs)

/-- `_get_fns_from_geom`: the retained filenames, year-ascending. -/
def _get_fns_from_geom (fns : List String) : Except PyErr (List String) :=
  match getFnsPairs fns with
  | .error e => .error e
  | .ok pairs => .ok (pairs.map Prod.fst)

/-- A concrete lookup result: four tile paths, two states, a duplicated
year. -/
def exampleFns : List String :=
  ["v002/al/2013/a.tif", "v002/ga/2012/b.tif", "v002/al/2011/c.tif",
   "v002/al/2011/d.tif"]

/-- What `_get_fns_from_geom` retains on `exampleFns`. -/
def exampleFnsOut : List (String × Int) :=
  [("v002/al/2011/c.tif", 2011), ("v002/al/2013/a.tif", 2013)]

/-! ## Theorems -/

/-- Invariant of the filtering loop: on success, the collected years stay
pairwise distinct and every collected pair has a parsed year and the base
state. -/
theorem fnsLoop_ok (base : String) :
    ∀ (l : List String) (acc res : List (String × Int)),
      fnsLoop base l acc = .ok res →
      (acc.map Prod.snd).Nodup →
      (∀ p ∈ acc, splitYear p.1 = .ok p.2 ∧ splitState p.1 = .ok base) →
      (res.map Prod.snd).Nodup
        ∧ ∀ p ∈ res, splitYear p.1 = .ok p.2 ∧ splitState p.1 = .ok base := by
  intro l
  induction l with
  | nil =>
    intro acc res h hnd hprop
    simp only [fnsLoop] at h
    cases h
    exact ⟨hnd, hprop⟩
  | cons fn rest ih =>
    intro acc res h hnd hprop
    simp only [fnsLoop] at h
    cases hy : splitYear fn with
    | error e =>
      simp only [hy] at h
      exact Except.noConfusion h
    | ok year =>
      simp only [hy] at h
      cases hst : splitState fn with
      | error e =>
        simp only [hst] at h
        exact Except.noConfusion h
      | ok state =>
        simp only [hst] at h
        by_cases hmem : year ∈ acc.map Prod.snd
        · rw [if_pos hmem] at h
          exact ih acc res h hnd hprop
        · rw [if_neg hmem] at h
          by_cases hne : state ≠ base
          · rw [if_pos hne] at h
            exact ih acc res h hnd hprop
          · rw [if_neg hne] at h
            have hstate : state = base := not_not.mp hne
            refine ih _ res h ?_ ?_
            · rw [List.map_append]
              simp [List.nodup_append, hnd, hmem]
            · intro p hp
              rcases List.mem_append.mp hp with hp | hp
              · exact hprop p hp
              · have hpfn : p = (fn, year) := by simpa using hp
                subst hpfn
                exact ⟨hy, hstate ▸ hst⟩

/-- Claim C10: on every lookup result on which it returns,
`_get_fns_from_geom` keeps at most one filename per year (the retained years
are strictly increasing, hence pairwise distinct), discards every filename
whose state differs from the state of the lexicographically smallest
filename, and returns the retained filenames in ascending year order. -/
theorem get_fns_from_geom_spec (fns : List String)
    (out : List (String × Int)) (h : getFnsPairs fns = .ok out) :
    (∃ m ∈ fns, (∀ x ∈ fns, strLe m x)
      ∧ ∀ p ∈ out, splitState p.1 = splitState m)
    ∧ (∀ p ∈ out, splitYear p.1 = .ok p.2)
    ∧ List.Pairwise (fun p q => p.2 < q.2) out
    ∧ _get_fns_from_geom fns = .ok (out.map Prod.fst) := by
  have h0 := h
  have hsorted : List.Sorted strLe (pySorted fns) :=
    List.sorted_insertionSort strLe fns
  have hperm : List.Perm (pySorted fns) fns := List.perm_insertionSort strLe fns
  unfold getFnsPairs at h
  cases hs : pySorted fns with
  | nil =>
    rw [hs] at h
    simp [pyListGet] at h
  | cons first tail =>
    rw [hs] at h
    rw [hs] at hsorted hperm
    have hget : pyListGet (first :: tail) 0 = .ok first := rfl
    simp only [hget] at h
    cases hst : splitState first with
    | error e =>
      simp only [hst] at h
      exact Except.noConfusion h
    | ok base =>
      simp only [hst] at h
      cases hl : fnsLoop base (first :: tail) [] with
      | error e =>
        simp only [hl] at h
        exact Except.noConfusion h
      | ok pairs =>
        simp only [hl, Except.ok.injEq] at h
        have hloop := fnsLoop_ok base (first :: tail) [] pairs hl
          (by simp) (by simp)
        have hsortPerm : List.Perm (sortByYear pairs) pairs :=
          List.perm_insertionSort yearLe pairs
        have hout : out = sortByYear pairs := h.symm
        have hmemout : ∀ p ∈ out, p ∈ pairs := by
          intro p hp
          exact hsortPerm.subset (hout ▸ hp)
        refine ⟨⟨first, ?_, ?_, ?_⟩, ?_, ?_, ?_⟩
        · exact hperm.subset (List.mem_cons_self first tail)
        · intro x hx
          have hx2 : x ∈ first :: tail := hperm.symm.subset hx
          rcases List.mem_cons.mp hx2 with hx2 | hx2
          · subst hx2
            exact le_refl x.data
          · exact List.rel_of_sorted_cons hsorted x hx2
        · intro p hp
          rw [(hloop.2 p (hmemout p hp)).2, hst]
        · intro p hp
          exact (hloop.2 p (hmemout p hp)).1
        · have hsorted2 : List.Pairwise yearLe out := by
            rw [hout]
            exact List.sorted_insertionSort yearLe pairs
          have hnd : (out.map Prod.snd).Nodup := by
            have hpermmap : List.Perm (out.map Prod.snd) (pairs.map Prod.snd) :=
              (hout ▸ hsortPerm).map Prod.snd
            exact hpermmap.nodup_iff.mpr hloop.1
          have hne : List.Pairwise (fun p q : String × Int => p.2 ≠ q.2) out :=
            List.pairwise_map.mp hnd
          exact (hsorted2.and hne).imp (fun hpq => lt_of_le_of_ne hpq.1 hpq.2)
        · unfold _get_fns_from_geom
          rw [h0]

/-- Witness for `get_fns_from_geom_spec`: on `exampleFns` the loader keeps
`c.tif` (year 2011, state `al`), drops `d.tif` (duplicate year 2011) and
`b.tif` (state `ga`), and returns `[c.tif, a.tif]` year-ascending. -/
theorem get_fns_from_geom_spec_witness :
    getFnsPairs exampleFns = .ok exampleFnsOut
    ∧ ((∃ m ∈ exampleFns, (∀ x ∈ exampleFns, strLe m x)
          ∧ ∀ p ∈ exampleFnsOut, splitState p.1 = splitState m)
      ∧ (∀ p ∈ exampleFnsOut, splitYear p.1 = .ok p.2)
      ∧ List.Pairwise (fun p q => p.2 < q.2) exampleFnsOut
      ∧ _get_fns_from_geom exampleFns = .ok (exampleFnsOut.map Prod.fst)) :=
  ⟨by decide, get_fns_from_geom_spec exampleFns exampleFnsOut (by decide)⟩

/-- Expanding a box by a nonnegative margin enlarges its region. -/
theorem region_subset_bufferEnvelope (b : QBox) (r : ℚ) (hr : 0 ≤ r) :
    b.region ⊆ (bufferEnvelope b r).region := by
  rintro ⟨x, y⟩ ⟨h1, h2, h3, h4⟩
  have hr' : (0 : ℝ) ≤ (r : ℝ) := by exact_mod_cast hr
  refine ⟨?_, ?_, ?_, ?_⟩ <;> simp only [bufferEnvelope] <;> push_cast <;> linarith

/-- Claim C1: the claim says `run_algorithm_parallel.main` starts the
tile-index server and then loads the geometry list and dispatches every
remaining geometry to a worker.  In the code, `server.serve_forever()`
(line 119) never returns, so geometry loading (line 128) and dispatch
(line 141) are unreachable: for every geometry list the trace dispatches
nothing and `main` never completes, while the spec's intended order (server
in a separate process, as in `start_server.py`) dispatches every geometry. -/
theorem parallel_main_dispatches_nothing :
    (∀ geoms : List Nat,
      runMain geoms parallelMainProgram =
        ⟨[.loadCheckpoint, .startServer, .serveForever], [], false⟩)
    ∧ (runMain [1, 2, 3] parallelMainProgram).dispatched ≠ [1, 2, 3]
    ∧ (∀ geoms : List Nat,
        (runMain geoms intendedMainProgram).dispatched = geoms
        ∧ (runMain geoms intendedMainProgram).completed = true) := by
  refine ⟨fun geoms => rfl, by simp [runMain, parallelMainProgram], fun geoms => ?_⟩
  simp [runMain, intendedMainProgram]

/-- Claim C3: the claim says a time-step with no usable imagery is dropped
together with its time label, so labels, images and masks have equal length
and a geometry with zero usable time-steps yields zero labels.  In
`get_data_stack_from_geom` the year list is the constant
`[2012, 2014, 2016, 2018, 2020]` of line 332 (the `years.append` is commented
out at line 430), so every geometry receives 5 time labels; with no usable
time-step the images and masks are empty while 5 labels are still returned. -/
theorem get_data_stack_years_not_dropped :
    (∀ env : NaipEnv, (get_data_stack_from_geom env).2.2 = naipYears)
    ∧ get_data_stack_from_geom emptyNaipEnv = ([], [], naipYears)
    ∧ naipYears.length = 5
    ∧ (get_data_stack_from_geom emptyNaipEnv).1.length = 0 := by
  refine ⟨fun env => rfl, rfl, rfl, rfl⟩

/-- Claim C6: the claim says that for every syntactically valid configuration
whose input file exists, argument parsing succeeds and the batch begins.  In
`run_algorithm1.py` line 31 the call
`parser.add_argument('--superres', requires=True, ...)` passes the invalid
keyword `requires`, so parser construction raises `TypeError` before
`parse_args` runs: startup fails for every command line. -/
theorem run_algorithm1_startup_always_fails :
    ∀ (α : Type) (parse : List String → Except PyErr α) (argv : List String),
      runAlgorithm1Startup parse argv = .error (.typeError "requires") := by
  intro α parse argv
  rfl

/-- Claim C9: after adding entries to the tile index, `intersection(bbox)`
returns exactly the ids of entries whose bounding box intersects the query
box; with `t1` at `(0,0,10,10)` and `t2` at `(20,20,30,30)`, the point query
`(5,5,5,5)` returns `[t1]`, `(25,25,25,25)` returns `[t2]`, and
`(50,50,50,50)` returns nothing. -/
theorem NoisyRtree_intersection_spec :
    (∀ (idx : RtreeIndex) (q : BBox) (i : String),
      i ∈ NoisyRtree.intersection idx q ↔
        ∃ b : BBox, (i, b) ∈ idx ∧ bboxIntersects b q = true)
    ∧ NoisyRtree.intersection exampleIndex ⟨5, 5, 5, 5⟩ = ["t1"]
    ∧ NoisyRtree.intersection exampleIndex ⟨25, 25, 25, 25⟩ = ["t2"]
    ∧ NoisyRtree.intersection exampleIndex ⟨50, 50, 50, 50⟩ = [] := by
  refine ⟨fun idx q i => ?_, by decide, by decide, by decide⟩
  simp only [NoisyRtree.intersection, Rtree.intersection, List.mem_map,
    List.mem_filter]
  constructor
  · rintro ⟨⟨j, b⟩, ⟨hm, hint⟩, rfl⟩
    exact ⟨b, hm, hint⟩
  · rintro ⟨b, hm, hint⟩
    exact ⟨(i, b), ⟨hm, hint⟩, rfl⟩

/-- Every list has at most as many filtered elements as elements. -/
theorem countZeroBands_le_length (p : List Int) : countZeroBands p ≤ p.length :=
  List.length_filter_le _ p

/-- The zero-band count equals the band count exactly when every band is 0. -/
theorem countZeroBands_eq_length_iff (p : List Int) :
    countZeroBands p = p.length ↔ ∀ b ∈ p, b = 0 := by
  induction p with
  | nil => simp [countZeroBands]
  | cons a t ih =>
    unfold countZeroBands at *
    by_cases ha : a = 0
    · subst ha
      simp only [List.filter_cons, beq_self_eq_true, if_true, List.length_cons]
      constructor
      · intro h b hb
        rcases List.mem_cons.mp hb with hb | hb
        · exact hb
        · exact (ih.mp (Nat.succ_injective h)) b hb
      · intro h
        have := ih.mpr (fun b hb => h b (List.mem_cons_of_mem _ hb))
        simp [this]
    · have hfa : ((a :: t).filter (fun b => b == 0)) = t.filter (fun b => b == 0) := by
        simp [List.filter_cons, ha]
      rw [hfa]
      constructor
      · intro h
        exact absurd (h ▸ List.length_filter_le _ t) (by simp)
      · intro h
        exact absurd (h a (List.mem_cons_self a t)) ha

/-- Claim C2 counterexample: in a batch of 2 geometries with exactly one
induced per-geometry failure, the claim predicts a completed batch with 2
result rows; the loop (which has no `try`/`except`) instead writes 0 rows and
lets the exception escape. -/
theorem batch_one_failure_aborts :
    (runBatchLoop exampleBatchWork [1, 2]).1.length = 0
    ∧ (runBatchLoop exampleBatchWork [1, 2]).2 = some .rasterioError
    ∧ ¬ ((runBatchLoop exampleBatchWork [1, 2]).1.length = 2
         ∧ (runBatchLoop exampleBatchWork [1, 2]).2 = none) := by
  refine ⟨rfl, rfl, ?_⟩
  intro h
  exact absurd (h.1) (by decide)

/-- Claim C2 amended: an exception raised while processing one geometry is
not caught in the per-geometry loop; it propagates and terminates the batch,
so a batch whose first failure occurs after `k` successful geometries yields
exactly the `k` rows written before the failure, and the batch does not
complete. -/
theorem runBatchLoop_aborts_at_failure {α : Type}
    (work : α → Except PyErr String) (gs1 gs2 : List α) (g : α) (e : PyErr)
    (h1 : ∀ x ∈ gs1, ∃ r, work x = .ok r) (h2 : work g = .error e) :
    (runBatchLoop work (gs1 ++ g :: gs2)).1.length = gs1.length
    ∧ (runBatchLoop work (gs1 ++ g :: gs2)).2 = some e := by
  induction gs1 with
  | nil => simp [runBatchLoop, h2]
  | cons a t ih =>
    obtain ⟨r, hr⟩ := h1 a (List.mem_cons_self a t)
    have ht := ih (fun x hx => h1 x (List.mem_cons_of_mem a hx))
    simp [runBatchLoop, hr, ht.1, ht.2]

/-- Witness for `runBatchLoop_aborts_at_failure`: geometry `0` succeeds,
geometry `1` fails, so the batch `[0, 1, 2]` yields exactly one row and the
exception escapes. -/
theorem runBatchLoop_aborts_witness :
    (∀ x ∈ [0], ∃ r, exampleBatchWork x = .ok r)
    ∧ exampleBatchWork 1 = .error .rasterioError
    ∧ (runBatchLoop exampleBatchWork ([0] ++ 1 :: [2])).1.length = [0].length
    ∧ (runBatchLoop exampleBatchWork ([0] ++ 1 :: [2])).2 = some .rasterioError := by
  have h1 : ∀ x ∈ [0], ∃ r, exampleBatchWork x = .ok r := by
    intro x hx
    have hx0 : x = 0 := by simpa using hx
    subst hx0
    exact ⟨toString 0 ++ ",|,\n", rfl⟩
  have h := runBatchLoop_aborts_at_failure exampleBatchWork [0] [2] 1
    .rasterioError h1 rfl
  exact ⟨h1, rfl, h.1, h.2⟩

/-- Claim C5 counterexample: the claim says a line is appended whether the
geometry id is a string or an integer; the writer runs `int(i[0])`
(`run_algorithm1.py:109`), which raises `ValueError` on the non-decimal
string id `"adu7"`, so no line is written for it. -/
theorem writeRow_string_id_raises :
    writeRow (.str "adu7") [2012, 2014] [1234] = .error .valueError := by
  decide

/-- Claim C5 amended: for every processed geometry whose id is an integer or
a decimal string, exactly one line is appended, consisting of the id, each
time label, the literal `|`, and each divergence value with exactly 4 digits
after the decimal point — every field comma-terminated and the line ending in
a newline; a geometry whose id is a non-decimal string raises `ValueError`
and no line is written. -/
theorem writeRow_format (id : PyVal) (n : Int) (years divs : List Int)
    (h : pyIntOfVal id = .ok n) :
    writeRow id years divs =
      .ok (intField n ++ yearFields years ++ "|," ++ divFields divs ++ "\n")
    ∧ ∀ d ∈ divs, ∃ intPart : String,
        fmt4 d = intPart ++ "." ++ frac4 (d.natAbs % 10000)
        ∧ (frac4 (d.natAbs % 10000)).length = 4 := by
  constructor
  · unfold writeRow
    rw [h]
  · intro d _
    refine ⟨(if d < 0 then "-" else "") ++ toString (d.natAbs / 10000), ?_, ?_⟩
    · unfold fmt4
      simp [String.append_assoc]
    · have digit_len : ∀ k : Nat, k < 10 → (toString k).length = 1 := by decide
      have h1 := digit_len (d.natAbs % 10000 / 1000 % 10) (Nat.mod_lt _ (by norm_num))
      have h2 := digit_len (d.natAbs % 10000 / 100 % 10) (Nat.mod_lt _ (by norm_num))
      have h3 := digit_len (d.natAbs % 10000 / 10 % 10) (Nat.mod_lt _ (by norm_num))
      have h4 := digit_len (d.natAbs % 10000 % 10) (Nat.mod_lt _ (by norm_num))
      unfold frac4
      simp [String.length_append, h1, h2, h3, h4]

/-- Witness for `writeRow_format` at the integer id `12`. -/
theorem writeRow_format_witness :
    pyIntOfVal (.int 12) = .ok 12
    ∧ (writeRow (.int 12) [2012] [5000] =
        .ok (intField 12 ++ yearFields [2012] ++ "|," ++ divFields [5000] ++ "\n")
      ∧ ∀ d ∈ [(5000 : Int)], ∃ intPart : String,
          fmt4 d = intPart ++ "." ++ frac4 (d.natAbs % 10000)
          ∧ (frac4 (d.natAbs % 10000)).length = 4) :=
  ⟨rfl, writeRow_format (.int 12) 12 [2012] [5000] rfl⟩

/-- Claim C7 counterexample: the claim says the mask is 1 exactly at pixels
carrying valid image data; at the all-bands-zero pixel the data-stack mask
(`DataInterface.py:425`, condition `== 4`) is 1 although the pixel carries no
data. -/
theorem dataMask_one_at_nodata :
    dataMaskPixel [0, 0, 0, 0] = 1 ∧ ¬ hasData [0, 0, 0, 0] := by
  decide

/-- Claim C7 amended: for a 4-band pixel, the RGB-stack mask
(`DataInterface.py:224`, condition `!= 4`) is 1 exactly at pixels carrying
valid data, while the data-stack mask (`DataInterface.py:425`, condition
`== 4`) has the opposite polarity: it is 1 exactly at the all-bands-zero
pixels (the footprint hole / no-data region, matching the base class's
"1 where covered by the geom" contract). -/
theorem mask_pixel_semantics (p : List Int) (h : p.length = 4) :
    (rgbMaskPixel p = 1 ↔ hasData p)
    ∧ (dataMaskPixel p = 1 ↔ ¬ hasData p) := by
  have key : countZeroBands p = 4 ↔ ∀ b ∈ p, b = 0 := by
    rw [← h]
    exact countZeroBands_eq_length_iff p
  have hnot : (¬ hasData p) ↔ ∀ b ∈ p, b = 0 := by
    simp [hasData]
  by_cases hc : countZeroBands p = 4
  · have hnd : ¬ hasData p := hnot.mpr (key.mp hc)
    simp [rgbMaskPixel, dataMaskPixel, hc, hnd]
  · have hd : hasData p := by
      by_contra hnd
      exact hc (key.mpr (hnot.mp hnd))
    simp [rgbMaskPixel, dataMaskPixel, hc, hd]

/-- Witness for `mask_pixel_semantics` at the pixel `[1, 0, 0, 0]`. -/
theorem mask_pixel_semantics_witness :
    ([1, 0, 0, 0] : List Int).length = 4
    ∧ ((rgbMaskPixel [1, 0, 0, 0] = 1 ↔ hasData [1, 0, 0, 0])
      ∧ (dataMaskPixel [1, 0, 0, 0] = 1 ↔ ¬ hasData [1, 0, 0, 0])) :=
  ⟨rfl, mask_pixel_semantics [1, 0, 0, 0] rfl⟩

/-- Claim C4: the claim says a re-invocation with a complete log performs
zero additional per-geometry processing.  `pd.read_csv`'s default header
inference consumes the first log line as the column-name row, so the first
logged id (`7`) is missing from the checkpoint set `[8]`; geometry `7` is
reprocessed and its line re-appended, although the first run had already
completed both geometries. -/
theorem resume_reprocesses_first_logged_geometry :
    resumeRun none [⟨7⟩, ⟨8⟩] exampleRow = .ok ([⟨7⟩, ⟨8⟩], firstRunLog)
    ∧ loadCheckpoint (some firstRunLog) = .ok [8]
    ∧ get_all_geoms_from_file1 [⟨7⟩, ⟨8⟩] [8] = [⟨7⟩]
    ∧ resumeRun (some firstRunLog) [⟨7⟩, ⟨8⟩] exampleRow =
        .ok ([⟨7⟩], [exampleRow ⟨7⟩])
    ∧ ([⟨7⟩] : List GeomRec) ≠ [] := by
  refine ⟨by decide, by decide, by decide, by decide, by decide⟩

/-- Claim C8: for every valid footprint and every positive buffer, the
bounding (neighborhood) shape derived by `get_mask_and_bounding_geoms` has
area at least the footprint's area, and the mask shape — the set difference
of the bounding shape and the footprint — has empty intersection with the
footprint. -/
theorem get_mask_and_bounding_geoms_spec (F : Set (ℝ × ℝ))
    (verts : List (ℚ × ℚ)) (buffer : ℚ)
    (hv : ValidFootprint F verts) (hb : 0 < buffer) :
    MeasureTheory.volume F ≤
      MeasureTheory.volume (get_mask_and_bounding_geoms F verts none buffer).2.1
    ∧ (get_mask_and_bounding_geoms F verts none buffer).1 ∩ F = ∅ := by
  constructor
  · apply MeasureTheory.measure_mono
    intro p hp
    exact region_subset_bufferEnvelope _ buffer (le_of_lt hb) (hv hp)
  · have hmask : (get_mask_and_bounding_geoms F verts none buffer).1 =
        (get_mask_and_bounding_geoms F verts none buffer).2.1 \ F := rfl
    rw [hmask]
    exact Set.diff_inter_self

/-- Witness for `get_mask_and_bounding_geoms_spec`: the unit square with
buffer 1. -/
theorem get_mask_and_bounding_geoms_spec_witness :
    ValidFootprint unitSquare unitSquareVerts
    ∧ (0 : ℚ) < 1
    ∧ (MeasureTheory.volume unitSquare ≤
        MeasureTheory.volume
          (get_mask_and_bounding_geoms unitSquare unitSquareVerts none 1).2.1
      ∧ (get_mask_and_bounding_geoms unitSquare unitSquareVerts none 1).1 ∩
          unitSquare = ∅) := by
  have henv : envelopeBox unitSquareVerts = ⟨0, 0, 1, 1⟩ := by decide
  have hv : ValidFootprint unitSquare unitSquareVerts := by
    unfold ValidFootprint
    rw [henv]
    exact fun p hp => hp
  exact ⟨hv, by norm_num,
    get_mask_and_bounding_geoms_spec unitSquare unitSquareVerts 1 hv (by norm_num)⟩

end TCM
